import Mathlib

/-!
Shallow embedding of the `aquarea` custom component (files
`custom_components/aquarea/coordinator.py` and
`custom_components/aquarea/water_heater.py`) together with proofs about the
behaviour of the update coordinator and the water-heater entity.

The vendor client library (`aioaquarea`) and the integration's `const.py`
are not among the provided sources; their declarations used by the two
files (error types, error-code enumeration, operation status, operation
labels) are modelled from the specification's description of the external
interfaces.
-/

namespace Aquarea

/-- Modelled from the spec: the `aioaquarea` error-code enumeration
(`AuthenticationErrorCodes`, in the missing `aioaquarea/errors.py`),
described as "an error-code enumeration including invalid credentials,
invalid username/password, token expired"; `otherCode` stands for the
remaining members of the enumeration. -/
inductive AuthenticationErrorCodes where
  | INVALID_USERNAME_OR_PASSWORD
  | INVALID_CREDENTIALS
  | TOKEN_EXPIRED
  | otherCode (code : String)
deriving DecidableEq, Repr

/-- Modelled from the spec: the exceptions the external client can raise,
"a distinguishable authentication-error type (carrying an error-code
enumeration ...) and a distinguishable generic request-failure type";
`otherException` stands for every other exception type. -/
inductive ClientError where
  | authenticationError (error_code : AuthenticationErrorCodes)
  | requestFailedError (msg : String)
  | otherException (name : String)
deriving DecidableEq, Repr

/-- Modelled from the spec: the tank's "on/off operation status"
(`OperationStatus` in the missing `aioaquarea/data.py`). -/
inductive OperationStatus where
  | ON
  | OFF
deriving DecidableEq, Repr

/-- The tank sub-object of a device snapshot: the fields read or driven by
`water_heater.py` (`operation_status`, `heat_min`, `heat_max`,
`target_temperature`, `temperature`). -/
structure Tank where
  operation_status : OperationStatus
  heat_min : ℚ
  heat_max : ℚ
  target_temperature : ℚ
  temperature : ℚ
deriving DecidableEq, Repr

/-- The device snapshot fields read by the two source files: the optional
tank sub-object, the device-level error flag and the human-readable name. -/
structure Device where
  tank : Option Tank
  is_on_error : Bool
  device_name : String
deriving DecidableEq, Repr

/-- Coordinator state relevant to the claims: the cached device snapshot
`self._device`, initialised to `None` in `__init__` (coordinator.py line 39). -/
structure CoordinatorState where
  _device : Option Device
deriving DecidableEq, Repr

/-- The host's error signals as observed from `_async_update_data`:
`ConfigEntryAuthFailed`, `UpdateFailed msg`. -/
inductive HostError where
  | configEntryAuthFailed
  | updateFailed (msg : String)
deriving DecidableEq, Repr

/-- How one invocation of `_async_update_data` terminates: a normal return,
a raised host error signal, or an exception not caught locally that
propagates out of the routine. -/
inductive UpdateOutcome where
  | ok
  | raised (h : HostError)
  | propagated (e : ClientError)
deriving DecidableEq, Repr

/-- The outcome of the awaited `self._client.get_device(...)` call: either a
fresh device snapshot or an exception. -/
inductive GetDeviceResult where
  | success (d : Device)
  | failure (e : ClientError)
deriving DecidableEq, Repr

/-- The membership test of coordinator.py lines 63-67: `err.error_code in
(INVALID_USERNAME_OR_PASSWORD, INVALID_CREDENTIALS, TOKEN_EXPIRED)`. -/
def isFatalAuthCode : AuthenticationErrorCodes → Bool
  | .INVALID_USERNAME_OR_PASSWORD => true
  | .INVALID_CREDENTIALS => true
  | .TOKEN_EXPIRED => true
  | .otherCode _ => false

/-- `AquareaDataUpdateCoordinator._async_update_data` (coordinator.py lines
52-72), with the awaited client call's outcome passed in explicitly.  On
success the fetched snapshot is assigned to `self._device`.  An
`AuthenticationError` is caught; `ConfigEntryAuthFailed` is raised only when
its code is one of the three listed ones, otherwise the except-branch falls
through and the routine returns normally.  A `RequestFailedError` is caught
and re-raised as `UpdateFailed` with the formatted message.  Any other
exception matches no except-clause and propagates. -/
def _async_update_data (st : CoordinatorState) (result : GetDeviceResult) :
    CoordinatorState × UpdateOutcome :=
  match result with
  | .success d => ({ st with _device := some d }, .ok)
  | .failure e =>
    match e with
    | .authenticationError code =>
        if isFatalAuthCode code then
          (st, .raised .configEntryAuthFailed)
        else
          (st, .ok)
    | .requestFailedError msg =>
        (st, .raised (.updateFailed
          ("Error communicating with Aquarea Smart Cloud API: " ++ msg)))
    | .otherException n => (st, .propagated (.otherException n))

/-- Modelled from the spec: the `HEATING` operation label from the
integration's `const.py` (not among the provided sources), "the heating
label". -/
def HEATING : String := "heating"

/-- The host framework's `STATE_OFF` constant
(`homeassistant.const.STATE_OFF`). -/
def STATE_OFF : String := "off"

/-- The host framework's `STATE_HEAT_PUMP` constant
(`homeassistant.components.water_heater.STATE_HEAT_PUMP`). -/
def STATE_HEAT_PUMP : String := "heat_pump"

/-- The entity attributes of `WaterHeater` that the claims are about:
availability, state, current operation, icon and the four temperature
attributes (all written by `__init__` and `_handle_coordinator_update`). -/
structure WaterHeaterState where
  _attr_available : Bool
  _attr_state : String
  _attr_current_operation : String
  _attr_icon : String
  _attr_min_temp : Option ℚ
  _attr_max_temp : Option ℚ
  _attr_target_temperature : Option ℚ
  _attr_current_temperature : Option ℚ
deriving DecidableEq, Repr

/-- The entity attribute values inherited from the host base classes before
the body of `WaterHeater.__init__` runs; every field below is overwritten by
the constructor before the entity is observable. -/
def initWaterHeaterState : WaterHeaterState where
  _attr_available := false
  _attr_state := ""
  _attr_current_operation := ""
  _attr_icon := ""
  _attr_min_temp := none
  _attr_max_temp := none
  _attr_target_temperature := none
  _attr_current_temperature := none

/-- `WaterHeater._update_operation_state` (water_heater.py lines 80-100),
reading the coordinator's cached snapshot `dev`. -/
def _update_operation_state (dev : Device) (st : WaterHeaterState) :
    WaterHeaterState :=
  match dev.tank with
  | none =>
    { st with
      _attr_state := STATE_OFF
      _attr_current_operation := STATE_OFF
      _attr_icon := "mdi:water-boiler-off" }
  | some tank =>
    if tank.operation_status = OperationStatus.OFF then
      { st with
        _attr_state := STATE_OFF
        _attr_current_operation := STATE_OFF
        _attr_icon :=
          if dev.is_on_error then "mdi:water-boiler-alert"
          else "mdi:water-boiler-off" }
    else
      { st with
        _attr_icon := "mdi:water-boiler"
        _attr_state := STATE_HEAT_PUMP
        _attr_current_operation := HEATING }

/-- `WaterHeater._update_temperature` (water_heater.py lines 102-113). -/
def _update_temperature (dev : Device) (st : WaterHeaterState) :
    WaterHeaterState :=
  match dev.tank with
  | none =>
    { st with
      _attr_min_temp := none
      _attr_max_temp := none
      _attr_target_temperature := none
      _attr_current_temperature := none }
  | some tank =>
    { st with
      _attr_min_temp := some tank.heat_min
      _attr_max_temp := some tank.heat_max
      _attr_target_temperature := some tank.target_temperature
      _attr_current_temperature := some tank.temperature }

/-- The dynamic part of `WaterHeater.__init__` (water_heater.py lines
58-60): set `_attr_available` from the tank's presence, then run
`_update_temperature` and `_update_operation_state` against the cached
snapshot `dev`. -/
def WaterHeater_init (dev : Device) : WaterHeaterState :=
  _update_operation_state dev
    (_update_temperature dev
      { initWaterHeaterState with _attr_available := dev.tank.isSome })

/-- The result of one run of `_handle_coordinator_update`: the entity state
it leaves behind, and the entity state in force at the moment
`super()._handle_coordinator_update()` publishes the entity's change to the
host. -/
structure UpdateRun where
  final : WaterHeaterState
  notified : WaterHeaterState
deriving DecidableEq, Repr

/-- `WaterHeater._handle_coordinator_update` (water_heater.py lines 72-78):
recompute availability, temperatures and operation state from the cached
snapshot `dev`, then call the host's notification; the state captured by
the notification is the state after all three recomputations. -/
def _handle_coordinator_update (dev : Device) (st : WaterHeaterState) :
    UpdateRun :=
  let st1 := { st with _attr_available := dev.tank.isSome }
  let st2 := _update_temperature dev st1
  let st3 := _update_operation_state dev st2
  { final := st3, notified := st3 }

/-- A call the entity can make on the tank sub-object. -/
inductive TankCall where
  | turn_on
  | turn_off
  | set_target_temperature (t : ℤ)
deriving DecidableEq, Repr

/-- A Python runtime error observable from the command handlers. -/
inductive PyError where
  | attributeErrorOnNone (attr : String)
deriving DecidableEq, Repr

/-- Python's `int()` applied to a rational value: truncation toward zero,
which is `Int.tdiv` on the numerator and denominator (`int(21.6) = 21`,
`int(-21.6) = -21`). -/
def pyInt (q : ℚ) : ℤ := q.num.tdiv (q.den : ℤ)

/-- `WaterHeater.async_set_temperature` (water_heater.py lines 115-124):
`kwargs.get(ATTR_TEMPERATURE)` is `temperature`; if it is `None` nothing is
called, otherwise `self.coordinator.device.tank.set_target_temperature(int(temperature))`
runs — which dereferences `tank` without a guard, so a `None` tank raises
`AttributeError`. -/
def async_set_temperature (dev : Device) (temperature : Option ℚ) :
    Except PyError (List TankCall) :=
  match temperature with
  | none => .ok []
  | some t =>
    match dev.tank with
    | none => .error (.attributeErrorOnNone "set_target_temperature")
    | some _ => .ok [.set_target_temperature (pyInt t)]

/-- `WaterHeater.async_set_operation_mode` (water_heater.py lines 126-139):
with no tank it logs a warning and returns; with a tank it calls `turn_on`
for the `HEATING` label, `turn_off` for `STATE_OFF`, and nothing for any
other mode.  No branch raises. -/
def async_set_operation_mode (dev : Device) (operation_mode : String) :
    Except PyError (List TankCall) :=
  match dev.tank with
  | none => .ok []
  | some _ =>
    if operation_mode = HEATING then .ok [.turn_on]
    else if operation_mode = STATE_OFF then .ok [.turn_off]
    else .ok []

/-- A concrete tank whose operation status is OFF, used by witnesses. -/
def sampleTank : Tank where
  operation_status := .OFF
  heat_min := 40
  heat_max := 65
  target_temperature := 50
  temperature := 48

/-- A concrete tank whose operation status is ON, used by witnesses. -/
def sampleTankOn : Tank := { sampleTank with operation_status := .ON }

/-- A concrete device snapshot with no tank, used by witnesses. -/
def devNoTank : Device where
  tank := none
  is_on_error := false
  device_name := "Aquarea"

/-- A concrete device snapshot with an OFF tank and the error flag set,
used by witnesses. -/
def devTankOffErr : Device where
  tank := some sampleTank
  is_on_error := true
  device_name := "Aquarea"

/-- A concrete device snapshot with an ON tank and no error, used by
witnesses. -/
def devTankOn : Device where
  tank := some sampleTankOn
  is_on_error := false
  device_name := "Aquarea"

end Aquarea

namespace Aquarea

/-- C1: an authentication error whose code is one of
invalid-username-or-password, invalid-credentials or token-expired makes the
update routine raise `ConfigEntryAuthFailed`; a `RequestFailedError` makes it
raise `UpdateFailed`; and the two host signals are distinct. -/
theorem C1_auth_and_request_failures (st : CoordinatorState)
    (c : AuthenticationErrorCodes)
    (hc : c = AuthenticationErrorCodes.INVALID_USERNAME_OR_PASSWORD ∨
          c = AuthenticationErrorCodes.INVALID_CREDENTIALS ∨
          c = AuthenticationErrorCodes.TOKEN_EXPIRED) :
    (_async_update_data st (.failure (.authenticationError c))).2 =
      UpdateOutcome.raised HostError.configEntryAuthFailed
    ∧ (∀ msg, (_async_update_data st (.failure (.requestFailedError msg))).2 =
        UpdateOutcome.raised (HostError.updateFailed
          ("Error communicating with Aquarea Smart Cloud API: " ++ msg)))
    ∧ (∀ msg, HostError.configEntryAuthFailed ≠ HostError.updateFailed msg) := by
  refine ⟨?_, fun msg => rfl, fun msg h => by cases h⟩
  rcases hc with h | h | h <;> subst h <;> rfl

/-- Witness for C1 at the token-expired code and a concrete state. -/
theorem C1_auth_and_request_failures_witness :
    (_async_update_data ⟨none⟩
      (.failure (.authenticationError AuthenticationErrorCodes.TOKEN_EXPIRED))).2 =
      UpdateOutcome.raised HostError.configEntryAuthFailed :=
  (C1_auth_and_request_failures ⟨none⟩ AuthenticationErrorCodes.TOKEN_EXPIRED
    (Or.inr (Or.inr rfl))).1

/-- C2 counterexample: an authentication error whose code is not one of the
three listed ones does not propagate out of the update routine; the
except-branch catches it and the routine returns normally (outcome `ok`),
so the exception is silently swallowed. -/
theorem C2_counterexample :
    (_async_update_data ⟨none⟩
        (.failure (.authenticationError (.otherCode "1001-2")))).2 =
      UpdateOutcome.ok
    ∧ (_async_update_data ⟨none⟩
        (.failure (.authenticationError (.otherCode "1001-2")))).2 ≠
      UpdateOutcome.propagated (.authenticationError (.otherCode "1001-2")) := by
  exact ⟨rfl, by decide⟩

/-- C2 amended: an exception that is neither an authentication error nor a
request failure is not caught locally and propagates out of the update
routine; but an authentication error whose code is not one of the three
listed ones is caught and silently swallowed (the routine returns normally
with no host signal). -/
theorem C2_amended_propagation (st : CoordinatorState) (e : ClientError)
    (c : AuthenticationErrorCodes) :
    ((∀ c0, e ≠ ClientError.authenticationError c0) →
     (∀ m, e ≠ ClientError.requestFailedError m) →
     (_async_update_data st (.failure e)).2 = UpdateOutcome.propagated e)
    ∧ (isFatalAuthCode c = false →
       (_async_update_data st (.failure (.authenticationError c))).2 =
         UpdateOutcome.ok) := by
  constructor
  · intro hna hnr
    cases e with
    | authenticationError c0 => exact absurd rfl (hna c0)
    | requestFailedError m => exact absurd rfl (hnr m)
    | otherException n => rfl
  · intro hc
    simp [_async_update_data, hc]

/-- Witness for C2's amended claim: a concrete foreign exception propagates,
and a concrete unlisted authentication code is swallowed. -/
theorem C2_amended_propagation_witness :
    (_async_update_data ⟨none⟩ (.failure (.otherException "ValueError"))).2 =
      UpdateOutcome.propagated (.otherException "ValueError")
    ∧ (_async_update_data ⟨none⟩
        (.failure (.authenticationError (.otherCode "1001-2")))).2 =
      UpdateOutcome.ok :=
  ⟨(C2_amended_propagation ⟨none⟩ (.otherException "ValueError")
      (.otherCode "1001-2")).1
      (fun c0 h => by cases h) (fun m h => by cases h),
   (C2_amended_propagation ⟨none⟩ (.otherException "ValueError")
      (.otherCode "1001-2")).2 rfl⟩

/-- C7: on a successful fetch the cached snapshot is replaced wholesale by
the snapshot the client returned, independently of the previously cached
value, and the routine returns normally. -/
theorem C7_wholesale_replacement (st : CoordinatorState) (d : Device) :
    _async_update_data st (.success d) =
      ({ _device := some d }, UpdateOutcome.ok) := rfl

/-- C8: when the update routine ends by raising a host error signal (a
caught authentication or request failure), the cached snapshot — including
the initial null snapshot — is left unchanged. -/
theorem C8_failure_preserves_cache (st : CoordinatorState) (e : ClientError)
    (h : HostError)
    (hr : (_async_update_data st (.failure e)).2 = UpdateOutcome.raised h) :
    (_async_update_data st (.failure e)).1 = st := by
  cases e with
  | authenticationError c => by_cases hc : isFatalAuthCode c <;>
      simp [_async_update_data, hc]
  | requestFailedError m => rfl
  | otherException n => rfl

/-- Witness for C8: a request failure against the initial null snapshot
raises `UpdateFailed` and leaves the cache at `None`. -/
theorem C8_failure_preserves_cache_witness :
    (_async_update_data ⟨none⟩ (.failure (.requestFailedError "boom"))).1 =
      (⟨none⟩ : CoordinatorState) :=
  C8_failure_preserves_cache ⟨none⟩ (.requestFailedError "boom")
    (.updateFailed "Error communicating with Aquarea Smart Cloud API: boom")
    rfl

/-- C3: for a snapshot with a tank, after a coordinator update the entity
the host sees is: OFF tank → state and current operation are the off state
and the icon is the alert variant exactly when the device error flag is
set, the plain off icon otherwise; non-OFF tank → the single heat-pump
state with current operation heating and the generic icon. -/
theorem C3_operation_state (dev : Device) (t : Tank) (st : WaterHeaterState)
    (h : dev.tank = some t) :
    (t.operation_status = OperationStatus.OFF →
      (_handle_coordinator_update dev st).notified._attr_state = STATE_OFF
      ∧ (_handle_coordinator_update dev st).notified._attr_current_operation =
          STATE_OFF
      ∧ ((_handle_coordinator_update dev st).notified._attr_icon =
           "mdi:water-boiler-alert" ↔ dev.is_on_error = true)
      ∧ (dev.is_on_error = false →
         (_handle_coordinator_update dev st).notified._attr_icon =
           "mdi:water-boiler-off"))
    ∧ (t.operation_status ≠ OperationStatus.OFF →
      (_handle_coordinator_update dev st).notified._attr_state = STATE_HEAT_PUMP
      ∧ (_handle_coordinator_update dev st).notified._attr_current_operation =
          HEATING
      ∧ (_handle_coordinator_update dev st).notified._attr_icon =
          "mdi:water-boiler") := by
  constructor
  · intro hoff
    cases herr : dev.is_on_error <;>
      simp [_handle_coordinator_update, _update_temperature,
        _update_operation_state, h, hoff, herr]
  · intro hon
    simp [_handle_coordinator_update, _update_temperature,
      _update_operation_state, h, hon]

/-- Witness for C3: an OFF tank with the error flag set yields the alert
icon, and an ON tank yields the heat-pump state with the heating label. -/
theorem C3_operation_state_witness :
    (_handle_coordinator_update devTankOffErr initWaterHeaterState).notified._attr_icon =
      "mdi:water-boiler-alert"
    ∧ (_handle_coordinator_update devTankOn initWaterHeaterState).notified._attr_state =
      STATE_HEAT_PUMP :=
  ⟨(((C3_operation_state devTankOffErr sampleTank initWaterHeaterState
        rfl).1 rfl).2.2.1).mpr rfl,
   ((C3_operation_state devTankOn sampleTankOn initWaterHeaterState
        rfl).2 (by decide)).1⟩

/-- C4: after construction and after every coordinator update the entity is
available exactly when the snapshot's tank is non-null, and with a null
tank all four temperature attributes are undefined, for every snapshot and
every prior entity state. -/
theorem C4_availability (dev : Device) (st : WaterHeaterState) :
    ((WaterHeater_init dev)._attr_available = true ↔ dev.tank ≠ none)
    ∧ ((_handle_coordinator_update dev st).final._attr_available = true ↔
        dev.tank ≠ none)
    ∧ (dev.tank = none →
        ((WaterHeater_init dev)._attr_min_temp = none
         ∧ (WaterHeater_init dev)._attr_max_temp = none
         ∧ (WaterHeater_init dev)._attr_target_temperature = none
         ∧ (WaterHeater_init dev)._attr_current_temperature = none)
        ∧ ((_handle_coordinator_update dev st).final._attr_min_temp = none
           ∧ (_handle_coordinator_update dev st).final._attr_max_temp = none
           ∧ (_handle_coordinator_update dev st).final._attr_target_temperature =
               none
           ∧ (_handle_coordinator_update dev st).final._attr_current_temperature =
               none)) := by
  refine ⟨?_, ?_, ?_⟩
  · cases htank : dev.tank with
    | none =>
      simp [WaterHeater_init, _update_temperature, _update_operation_state,
        initWaterHeaterState, htank]
    | some t =>
      by_cases hop : t.operation_status = OperationStatus.OFF <;>
        simp [WaterHeater_init, _update_temperature, _update_operation_state,
          initWaterHeaterState, htank, hop]
  · cases htank : dev.tank with
    | none =>
      simp [_handle_coordinator_update, _update_temperature,
        _update_operation_state, htank]
    | some t =>
      by_cases hop : t.operation_status = OperationStatus.OFF <;>
        simp [_handle_coordinator_update, _update_temperature,
          _update_operation_state, htank, hop]
  · intro htank
    simp [WaterHeater_init, _handle_coordinator_update, _update_temperature,
      _update_operation_state, initWaterHeaterState, htank]

/-- Witness for C4 at a tankless snapshot: the entity is unavailable and
all temperature attributes are undefined. -/
theorem C4_availability_witness :
    (WaterHeater_init devNoTank)._attr_min_temp = none
    ∧ (_handle_coordinator_update devNoTank
        initWaterHeaterState).final._attr_current_temperature = none :=
  ⟨((C4_availability devNoTank initWaterHeaterState).2.2 rfl).1.1,
   ((C4_availability devNoTank initWaterHeaterState).2.2 rfl).2.2.2.2⟩

/-- C5: with a tank present, mode heating calls `turn_on` exactly once and
never `turn_off`; mode off calls `turn_off` exactly once and never
`turn_on`; any other mode, or a missing tank, calls neither and raises no
error. -/
theorem C5_set_operation_mode (dev : Device) (mode : String) :
    (dev.tank ≠ none → mode = HEATING →
      ∃ calls, async_set_operation_mode dev mode = .ok calls
        ∧ calls.count TankCall.turn_on = 1
        ∧ calls.count TankCall.turn_off = 0)
    ∧ (dev.tank ≠ none → mode = STATE_OFF →
      ∃ calls, async_set_operation_mode dev mode = .ok calls
        ∧ calls.count TankCall.turn_off = 1
        ∧ calls.count TankCall.turn_on = 0)
    ∧ (mode ≠ HEATING → mode ≠ STATE_OFF →
        async_set_operation_mode dev mode = .ok [])
    ∧ (dev.tank = none → async_set_operation_mode dev mode = .ok []) := by
  refine ⟨?_, ?_, ?_, ?_⟩
  · intro htank hmode
    cases h : dev.tank with
    | none => exact absurd h htank
    | some t =>
      exact ⟨[TankCall.turn_on],
        by simp [async_set_operation_mode, h, hmode], by decide, by decide⟩
  · intro htank hmode
    cases h : dev.tank with
    | none => exact absurd h htank
    | some t =>
      refine ⟨[TankCall.turn_off], ?_, by decide, by decide⟩
      simp [async_set_operation_mode, h, hmode, STATE_OFF, HEATING]
  · intro h1 h2
    cases h : dev.tank <;> simp [async_set_operation_mode, h, h1, h2]
  · intro h
    simp [async_set_operation_mode, h]

/-- Witness for C5: heating on a device with a tank calls `turn_on` once,
and heating on a tankless device performs no call and raises no error. -/
theorem C5_set_operation_mode_witness :
    (∃ calls, async_set_operation_mode devTankOn HEATING = .ok calls
      ∧ calls.count TankCall.turn_on = 1
      ∧ calls.count TankCall.turn_off = 0)
    ∧ async_set_operation_mode devNoTank HEATING = .ok [] :=
  ⟨(C5_set_operation_mode devTankOn HEATING).1 (by decide) rfl,
   (C5_set_operation_mode devNoTank HEATING).2.2.2 rfl⟩

/-- C6 counterexample: with a temperature supplied but a null tank, the
command does not invoke `set_target_temperature`; it fails with an
`AttributeError` on the `None` tank, so the claim's supplied-value clause
fails on this call. -/
theorem C6_counterexample :
    async_set_temperature devNoTank (some ((216 : ℚ)/10)) =
      .error (.attributeErrorOnNone "set_target_temperature")
    ∧ async_set_temperature devNoTank (some ((216 : ℚ)/10)) ≠
      .ok [TankCall.set_target_temperature 21] :=
  ⟨rfl, fun hcontra => Except.noConfusion hcontra⟩

/-- C6 amended: with no temperature supplied no control call is made; with
a temperature supplied and a tank present, `set_target_temperature` is
invoked exactly once with the value truncated toward zero to an integer
(with a temperature supplied but no tank, the call fails instead, see the
null-tank dereference claim). -/
theorem C6_amended_set_temperature (dev : Device) (q : ℚ) :
    async_set_temperature dev none = Except.ok []
    ∧ (dev.tank ≠ none →
       async_set_temperature dev (some q) =
         .ok [TankCall.set_target_temperature (pyInt q)]) := by
  refine ⟨rfl, ?_⟩
  intro h
  cases htank : dev.tank with
  | none => exact absurd htank h
  | some t => simp [async_set_temperature, htank]

/-- Witness for C6's amended claim: supplying 21.6 to a device with a tank
invokes the control call once with the integer 21, and supplying -21.6
invokes it with -21 (truncation toward zero, as Python's `int()`). -/
theorem C6_amended_set_temperature_witness :
    async_set_temperature devTankOn (some ((216 : ℚ)/10)) =
      .ok [TankCall.set_target_temperature 21]
    ∧ async_set_temperature devTankOn (some (-(216 : ℚ)/10)) =
      .ok [TankCall.set_target_temperature (-21)] := by
  constructor
  · have h := (C6_amended_set_temperature devTankOn ((216 : ℚ)/10)).2 (by decide)
    have hp : pyInt ((216 : ℚ)/10) = 21 := by norm_num [pyInt]; decide
    rw [h, hp]
  · have h := (C6_amended_set_temperature devTankOn (-(216 : ℚ)/10)).2 (by decide)
    have hp : pyInt (-(216 : ℚ)/10) = -21 := by norm_num [pyInt]; decide
    rw [h, hp]

/-- C9: on every coordinator update the entity recomputes availability,
temperatures and operation state before the host is notified: the state
captured by the notification is the fully recomputed final state, the
whole run is independent of the prior entity state, and the published
state equals the pure projection of the cached snapshot. -/
theorem C9_recompute_before_notify (dev : Device) (s1 s2 : WaterHeaterState) :
    (_handle_coordinator_update dev s1).notified =
      (_handle_coordinator_update dev s1).final
    ∧ _handle_coordinator_update dev s1 = _handle_coordinator_update dev s2
    ∧ (_handle_coordinator_update dev s1).notified = WaterHeater_init dev := by
  have key : ∀ s : WaterHeaterState, _handle_coordinator_update dev s =
      { final := WaterHeater_init dev, notified := WaterHeater_init dev } := by
    intro s
    cases htank : dev.tank with
    | none =>
      simp [_handle_coordinator_update, _update_temperature,
        _update_operation_state, WaterHeater_init, initWaterHeaterState, htank]
    | some t =>
      by_cases hop : t.operation_status = OperationStatus.OFF <;>
        simp [_handle_coordinator_update, _update_temperature,
          _update_operation_state, WaterHeater_init, initWaterHeaterState,
          htank, hop]
  exact ⟨rfl, by rw [key s1, key s2], by rw [key s1]⟩

/-- C10: supplying a temperature while the tank is null does not silently
no-op — the command dereferences the null tank and fails — whereas setting
an operation mode with a null tank returns without any call and without
error. -/
theorem C10_null_tank_dereference (dev : Device) (q : ℚ) (mode : String)
    (h : dev.tank = none) :
    (∃ e, async_set_temperature dev (some q) = .error e)
    ∧ async_set_temperature dev (some q) ≠ .ok []
    ∧ async_set_operation_mode dev mode = .ok [] := by
  refine ⟨⟨.attributeErrorOnNone "set_target_temperature", ?_⟩, ?_, ?_⟩ <;>
    simp [async_set_temperature, async_set_operation_mode, h]

/-- Witness for C10 at a concrete tankless device. -/
theorem C10_null_tank_dereference_witness :
    (∃ e, async_set_temperature devNoTank (some 50) = .error e)
    ∧ async_set_operation_mode devNoTank HEATING = .ok [] :=
  ⟨(C10_null_tank_dereference devNoTank 50 HEATING rfl).1,
   (C10_null_tank_dereference devNoTank 50 HEATING rfl).2.2⟩

end Aquarea
